import Mathlib

/-!
Verification development for the streamstaff repository.

The repository implements a chunked buffering, fixed-window extraction and
spectral/filter transform pipeline over live sample streams:
  * src/streamstaff/transforms.py : psd wrapper and psd_backend worker loop
  * src/streamstaff/filtering.py  : custom_filter class and its _backend loop
  * src/streamstaff/templates.py  : StreamManipulator base class

We shallowly embed the data model and the operations of these files.  Rows of
samples are lists, a buffer is a list of rows, numeric samples are rationals.
The transport collaborator (pylsl pull/push) is modelled by feeding a finite
list of pulled chunks to the loop body and collecting the pushed outputs.
-/

namespace Streamstaff

/-! ## ChunkBuffer operations

transforms.py line 59 appends a pulled chunk to the buffer
(`buffer = np.append(buffer, input_chunk[0], axis=0)`), and lines 61-64
(resp. filtering.py lines 86-89 with `buf_size` in place of `window_length`)
extract a window: `if len(buffer) >= window_length: data = buffer[0:window_length];
buffer = buffer[window_length:]`.  Rows are abstract here; the shape constraint
imposed by np.append is modelled separately below (see npAppendRows). -/

/-- Embeds the buffer append of transforms.py line 59 / filtering.py line 84:
new rows are concatenated at the tail of the buffer. -/
def bufAppend {α : Type} (buffer chunk : List α) : List α := buffer ++ chunk

/-- Embeds the window extraction of transforms.py lines 61-64 / filtering.py
lines 86-89: when at least `w` rows are buffered, the first `w` rows are
removed and returned together with the remaining buffer; otherwise nothing
happens (the loop waits for more input). -/
def take_window {α : Type} (w : ℕ) (buffer : List α) : Option (List α × List α) :=
  if w ≤ buffer.length then some (buffer.take w, buffer.drop w) else none

/-! ## The psd_backend worker loop (transforms.py lines 55-113)

One loop iteration pulls a chunk; if it is non-empty it is appended to the
buffer, and then (at most) one window is extracted and transformed.  The
per-window transform (lines 65-113: transpose, per-channel PSD, transpose,
push) is abstracted as a function `tr` of the extracted window; it is embedded
concretely further below. -/

/-- One iteration of the psd_backend loop body (transforms.py lines 55-64):
pull a chunk; if non-empty, append it to the buffer; if the buffer now holds at
least `w` rows, remove the first `w` rows and push the transform of them.
Note the extraction is guarded by an `if`, not a `while`: at most one window is
extracted per pulled chunk. -/
def psdStep {α β : Type} (w : ℕ) (tr : List α → β) (buf : List α) (chunk : List α) :
    List α × Option β :=
  if chunk.isEmpty then (buf, none)
  else
    let b := buf ++ chunk
    if w ≤ b.length then (b.drop w, some (tr (b.take w))) else (b, none)

/-- Runs the psd_backend loop over a finite list of pulled chunks, collecting
the pushed outputs in push order. -/
def psdRun {α β : Type} (w : ℕ) (tr : List α → β) :
    List α → List (List α) → List α × List β
  | buf, [] => (buf, [])
  | buf, c :: cs =>
    match psdStep w tr buf c with
    | (b2, o) =>
      match psdRun w tr b2 cs with
      | (bf, os) => (bf, o.toList ++ os)

/-- The non-overlapping segmentation of a row sequence into consecutive
windows of length `w`:  the k-th window is rows `[k*w, k*w + w)`.  Used to
state which windows a worker run emits. -/
def windows {α : Type} (w : ℕ) (rows : List α) : List (List α) :=
  (List.range (rows.length / w)).map (fun k => (rows.drop (k * w)).take w)

theorem windows_cons {α : Type} (w : ℕ) (hw : 0 < w) (rows : List α)
    (h : w ≤ rows.length) :
    windows w rows = rows.take w :: windows w (rows.drop w) := by
  unfold windows
  have hlen : rows.length / w = (rows.length - w) / w + 1 :=
    Nat.div_eq_sub_div hw h
  rw [hlen, List.range_succ_eq_map, List.length_drop]
  simp only [List.map_cons, List.map_map]
  congr 1
  · simp
  · apply List.map_congr_left
    intro k _
    simp only [Function.comp_apply]
    rw [List.drop_drop]
    congr 1
    rw [Nat.succ_mul, Nat.mul_comm, Nat.add_comm]

theorem windows_of_short {α : Type} (w : ℕ) (rows : List α)
    (h : rows.length < w) : windows w rows = [] := by
  unfold windows
  rw [Nat.div_eq_of_lt h]
  simp

theorem windows_take_succ {α : Type} (w k : ℕ) (hw : 0 < w) (L : List α)
    (h : w ≤ L.length) :
    windows w (L.take ((k + 1) * w))
      = L.take w :: windows w ((L.drop w).take (k * w)) := by
  have h1 : (k + 1) * w = w + k * w := by rw [Nat.succ_mul, Nat.add_comm]
  have htk : L.take ((k + 1) * w) = L.take w ++ (L.drop w).take (k * w) := by
    rw [h1, List.take_add]
  have hlt : (L.take w).length = w := by
    rw [List.length_take]; omega
  rw [htk, windows_cons w hw _ (by rw [List.length_append, hlt]; omega)]
  congr 1
  · rw [List.take_append_of_le_length (le_of_eq hlt.symm), List.take_take,
      Nat.min_self]
  · rw [List.drop_append_of_le_length (le_of_eq hlt.symm),
      List.drop_eq_nil_of_le (le_of_eq hlt), List.nil_append]

/-- The fundamental behaviour of the psd_backend loop: starting from buffer
`buf`, after consuming the pulled chunks the worker has pushed, in order, the
transforms of the first `k` consecutive non-overlapping windows of the arrived
rows (for some `k`), and the rows past those `k` windows are exactly what
remains in the buffer. -/
theorem psdRun_spec {α β : Type} (w : ℕ) (hw : 0 < w) (tr : List α → β) :
    ∀ (chunks : List (List α)) (buf : List α),
      ∃ k, (psdRun w tr buf chunks).2
              = (windows w ((buf ++ chunks.flatten).take (k * w))).map tr
         ∧ (psdRun w tr buf chunks).1 = (buf ++ chunks.flatten).drop (k * w)
         ∧ k * w ≤ (buf ++ chunks.flatten).length := by
  intro chunks
  induction chunks with
  | nil =>
    intro buf
    exact ⟨0, by simp [psdRun, windows], by simp [psdRun], by simp⟩
  | cons c cs ih =>
    intro buf
    have hjoin : buf ++ (c :: cs).flatten = (buf ++ c) ++ cs.flatten := by
      rw [List.flatten_cons, List.append_assoc]
    by_cases hc : c.isEmpty
    · have hceq : c = [] := List.isEmpty_iff.mp hc
      subst hceq
      obtain ⟨k, h1, h2, h3⟩ := ih buf
      have hrun2 : (psdRun w tr buf ([] :: cs)).2 = (psdRun w tr buf cs).2 := by
        simp [psdRun, psdStep]
      have hrun1 : (psdRun w tr buf ([] :: cs)).1 = (psdRun w tr buf cs).1 := by
        simp [psdRun, psdStep]
      refine ⟨k, ?_, ?_, ?_⟩
      · rw [hrun2, h1]
        simp
      · rw [hrun1, h2]
        simp
      · simpa using h3
    · by_cases hlen : w ≤ (buf ++ c).length
      · have hlenn : w ≤ buf.length + c.length := by
          rw [← List.length_append]
          exact hlen
        obtain ⟨k, h1, h2, h3⟩ := ih ((buf ++ c).drop w)
        have hrun2 : (psdRun w tr buf (c :: cs)).2
            = tr ((buf ++ c).take w)
              :: (psdRun w tr ((buf ++ c).drop w) cs).2 := by
          simp [psdRun, psdStep, hc, hlenn]
        have hrun1 : (psdRun w tr buf (c :: cs)).1
            = (psdRun w tr ((buf ++ c).drop w) cs).1 := by
          simp [psdRun, psdStep, hc, hlenn]
        have hL : w ≤ ((buf ++ c) ++ cs.flatten).length := by
          rw [List.length_append]
          omega
        refine ⟨k + 1, ?_, ?_, ?_⟩
        · rw [hrun2, h1, hjoin, windows_take_succ w k hw _ hL, List.map_cons,
            List.take_append_of_le_length hlen,
            List.drop_append_of_le_length hlen]
        · rw [hrun1, h2, hjoin, ← List.drop_append_of_le_length hlen,
            List.drop_drop]
          congr 1
          rw [Nat.succ_mul, Nat.add_comm]
        · rw [List.length_append, List.length_drop] at h3
          rw [hjoin, List.length_append, Nat.succ_mul]
          generalize k * w = m at h3 ⊢
          omega
      · have hlenn : ¬ w ≤ buf.length + c.length := by
          rw [← List.length_append]
          exact hlen
        obtain ⟨k, h1, h2, h3⟩ := ih (buf ++ c)
        have hrun2 : (psdRun w tr buf (c :: cs)).2
            = (psdRun w tr (buf ++ c) cs).2 := by
          simp [psdRun, psdStep, hc, hlenn]
        have hrun1 : (psdRun w tr buf (c :: cs)).1
            = (psdRun w tr (buf ++ c) cs).1 := by
          simp [psdRun, psdStep, hc, hlenn]
        refine ⟨k, ?_, ?_, ?_⟩
        · rw [hrun2, h1, hjoin]
        · rw [hrun1, h2, hjoin]
        · rw [hjoin]
          exact h3

/-- C1: append concatenates rows at the tail in arrival order (no-op on an
empty chunk); take_window returns none when fewer than n rows are buffered and
otherwise removes exactly the first n rows, leaving the remaining
len(buffer) - n rows behind in their original order, with no row reordered or
duplicated (the extracted window and the retained rows recompose the original
buffer). -/
theorem C1_buffer_fifo {α : Type} (buffer chunk : List α) (n : ℕ) :
    bufAppend buffer ([] : List α) = buffer
    ∧ bufAppend buffer chunk = buffer ++ chunk
    ∧ (buffer.length < n → take_window n buffer = none)
    ∧ (n ≤ buffer.length →
        take_window n buffer = some (buffer.take n, buffer.drop n)
        ∧ (buffer.take n).length = n
        ∧ (buffer.drop n).length = buffer.length - n
        ∧ buffer.take n ++ buffer.drop n = buffer) := by
  refine ⟨by simp [bufAppend], rfl, ?_, ?_⟩
  · intro h
    simp [take_window, Nat.not_le.mpr h]
  · intro h
    refine ⟨by simp [take_window, h], ?_, by simp, by simp⟩
    rw [List.length_take]
    omega

theorem C1_buffer_fifo_witness :
    take_window 2 ([10, 20, 30] : List ℕ) = some ([10, 20], [30]) :=
  ((C1_buffer_fifo ([10, 20, 30] : List ℕ) [] 2).2.2.2 (by decide)).1

/-- C3 counterexample: with window length 1 and a single pulled chunk holding
two rows, two full windows are available after the append but the psd_backend
loop extracts and pushes only one of them (the extraction is an if, not a
while, and only runs when a non-empty chunk is pulled); a full window remains
in the buffer, so the pushed outputs are not all the available windows. -/
theorem C3_counterexample :
    (psdRun 1 (fun l => l) ([] : List ℕ) [[0, 1]]).2
        ≠ (windows 1 (([[0, 1]] : List (List ℕ)).flatten)).map (fun l => l)
      ∧ 1 ≤ (psdRun 1 (fun l => l) ([] : List ℕ) [[0, 1]]).1.length := by
  constructor
  · decide
  · decide

/-- C3 (amended): within one psd_backend worker, the pushed output chunks are
exactly the transforms of the first k consecutive non-overlapping windows of
the concatenated input rows, in strict arrival order, with no reordering, no
duplication and no garbled chunk; however at most one window is extracted per
non-empty pulled chunk, so a fully available window can remain buffered (k can
be smaller than the number of available windows) until a further non-empty
chunk is pulled. -/
theorem C3_psd_worker_order {α β : Type} (w : ℕ) (tr : List α → β)
    (chunks : List (List α)) (hw : 0 < w) :
    ∃ k, (psdRun w tr [] chunks).2
            = (windows w (chunks.flatten.take (k * w))).map tr
       ∧ (psdRun w tr [] chunks).1 = chunks.flatten.drop (k * w)
       ∧ k * w ≤ chunks.flatten.length := by
  simpa using psdRun_spec w hw tr chunks []

theorem C3_psd_worker_order_witness :
    ∃ k, (psdRun 2 (fun l => l) ([] : List ℕ) [[0, 1], [2]]).2
            = (windows 2 (([[0, 1], [2]] : List (List ℕ)).flatten.take (k * 2))).map
                (fun l => l)
       ∧ (psdRun 2 (fun l => l) ([] : List ℕ) [[0, 1], [2]]).1
            = ([[0, 1], [2]] : List (List ℕ)).flatten.drop (k * 2)
       ∧ k * 2 ≤ ([[0, 1], [2]] : List (List ℕ)).flatten.length :=
  C3_psd_worker_order 2 (fun l => l) [[0, 1], [2]] (by decide)

/-! ## The periodogram branch (transforms.py lines 72-93)

The branch computes, for one channel series `x` of the extracted window:
`window = window_type(window_length)`, `window_power = sum(square(window))`,
`data_windowed = x - mean(x)`, `data_windowed = data_windowed * window`,
`data_fft = np.fft.rfft(data_windowed, n=window_length)` and appends
`(1/window_power) * square(abs(data_fft))`.

Complex numbers are embedded as pairs of rationals so that everything stays
executable.  The discrete Fourier transform of np.fft.rfft is taken at the
primitive root `omega = exp(-2*pi*i/n)`; that root is irrational, so the
embedding is parametric in the root `om`: coefficient `k` of the transform is
`sum_j x_j * om^(j*k)`, and every theorem below holds for all `om`, in
particular for the numpy root. -/

/-- Complex addition on rational pairs (real part, imaginary part). -/
def cadd (u v : ℚ × ℚ) : ℚ × ℚ := (u.1 + v.1, u.2 + v.2)

/-- Complex multiplication on rational pairs. -/
def cmul (u v : ℚ × ℚ) : ℚ × ℚ :=
  (u.1 * v.1 - u.2 * v.2, u.1 * v.2 + u.2 * v.1)

/-- Complex power with a natural exponent. -/
def cpow (u : ℚ × ℚ) : ℕ → ℚ × ℚ
  | 0 => (1, 0)
  | n + 1 => cmul u (cpow u n)

/-- Squared magnitude of a complex pair: `square(abs(c))` of the source. -/
def normSq (u : ℚ × ℚ) : ℚ := u.1 * u.1 + u.2 * u.2

/-- np.mean of a one-dimensional array: sum divided by length. -/
def npMean (x : List ℚ) : ℚ := x.sum / (x.length : ℚ)

/-- np.fft.rfft pads or truncates its input to length `n` before
transforming. -/
def padTo (n : ℕ) (x : List ℚ) : List ℚ :=
  x.take n ++ List.replicate (n - x.length) 0

/-- Coefficient `k` of the discrete Fourier transform at root `om`:
`sum_j x_j * om^(j*k)`. -/
def dftCoeff (om : ℚ × ℚ) (x : List ℚ) (k : ℕ) : ℚ × ℚ :=
  (x.enum.map (fun p => cmul (p.2, 0) (cpow om (p.1 * k)))).foldl cadd (0, 0)

/-- Embeds `np.fft.rfft(x, n=n)`: the one-sided spectrum, coefficients
`0 .. n/2` of the `n`-point transform of the input padded or truncated to
length `n` (output length `n/2 + 1`). -/
def rfft (om : ℚ × ℚ) (n : ℕ) (x : List ℚ) : List (ℚ × ℚ) :=
  (List.range (n / 2 + 1)).map (fun k => dftCoeff om (padTo n x) k)

/-- The WindowFunction weights applied elementwise (transforms.py line 85:
`data_windowed * window`). -/
def applyWindow (win x : List ℚ) : List ℚ :=
  List.zipWith (fun u v => u * v) x win

/-- DC removal (transforms.py lines 82-84: `data - np.mean(data)`). -/
def subtractMean (x : List ℚ) : List ℚ :=
  x.map (fun v => v - npMean x)

/-- The total energy of the window weights (transforms.py line 79:
`np.sum(np.square(window))`). -/
def windowPower (win : List ℚ) : ℚ := (win.map (fun v => v * v)).sum

/-- Embeds the periodogram branch of psd_backend (transforms.py lines 72-93)
for one channel series `x`, parametric in the DFT root `om` and the window
function `wt`. -/
def periodogram (om : ℚ × ℚ) (wt : ℕ → List ℚ) (wl : ℕ) (x : List ℚ) :
    List ℚ :=
  let window := wt wl
  let window_power := (window.map (fun v => v * v)).sum
  let data_windowed := x.map (fun v => v - npMean x)
  let data_windowed2 := List.zipWith (fun u v => u * v) data_windowed window
  (rfft om wl data_windowed2).map (fun c => (1 / window_power) * normSq c)

theorem rfft_length (om : ℚ × ℚ) (n : ℕ) (x : List ℚ) :
    (rfft om n x).length = n / 2 + 1 := by
  unfold rfft
  rw [List.length_map, List.length_range]

/-- C2: for one selected channel of a window of length n, the periodogram
output is obtained by subtracting the window mean, applying the window
weights elementwise, taking the real-input FFT, squaring its magnitudes and
dividing by the sum of the squared window weights; the output length is
exactly n/2 + 1 (one-sided spectrum), for every DFT root, window function and
input series. -/
theorem C2_periodogram_pipeline (om : ℚ × ℚ) (wt : ℕ → List ℚ) (wl : ℕ)
    (x : List ℚ) :
    periodogram om wt wl x
        = (rfft om wl (applyWindow (wt wl) (subtractMean x))).map
            (fun c => normSq c / windowPower (wt wl))
      ∧ (periodogram om wt wl x).length = wl / 2 + 1 := by
  constructor
  · unfold periodogram applyWindow subtractMean windowPower
    apply List.map_congr_left
    intro c _
    rw [one_div_mul_eq_div]
  · unfold periodogram
    rw [List.length_map, rfft_length]

/-! ## Channel selection (transforms.py lines 38-44) -/

/-- Embeds the channel selection of psd_backend (transforms.py lines 38-44):
with no request, all channels `0 .. C-1` in ascending order
(`np.linspace(0, numchan - 1, numchan)`); with an explicit request, every
1-based entry is shifted down by one (`[x - 1 for x in channels]`).  The
source performs no range check of any kind and contains no raise statement,
so no error can occur here. -/
def psdChannels (channels : Option (List ℤ)) (C : ℕ) : List ℤ :=
  match channels with
  | none => (List.range C).map (fun i => (i : ℤ))
  | some chs => chs.map (fun x => x - 1)

/-- C6 counterexample: requesting channel 5 on a 4-channel stream produces the
out-of-range zero-based index 4 with no error of any kind; the claimed
validation (raising ConfigurationError for a requested channel at or past the
channel count) does not exist in the code. -/
theorem C6_counterexample :
    psdChannels (some [5]) 4 = [4]
      ∧ ¬ (∀ i ∈ psdChannels (some [5]) 4, 0 ≤ i ∧ i < 4) := by
  constructor
  · rfl
  · decide

/-- C6 (amended): each 1-based requested channel number is converted to a
0-based index by subtracting one (channels [2,4] on a 4-channel stream yield
indices [1,3], and with no request all indices 0..C-1 are selected), but no
validation is performed: the conversion is total and out-of-range requests
are accepted without error. -/
theorem C6_channel_conversion (chs : List ℤ) (C : ℕ) :
    psdChannels (some [2, 4]) 4 = [1, 3]
      ∧ psdChannels (some chs) C = chs.map (fun x => x - 1)
      ∧ psdChannels none C = (List.range C).map (fun i => (i : ℤ)) :=
  ⟨rfl, rfl, rfl⟩

/-! ## The per-window channel loop (transforms.py lines 68-110) -/

/-- Embeds the per-window channel loop of psd_backend (transforms.py lines
68-110).  `data` is the transposed window (`data[j]` is the series of
channel `j`) and `channels` the selected zero-based indices (the source casts
`channels[i]` with `int(...)` at use).  For loop position `i`:
  * the periodogram branch transforms `data[int(channels[i])]`,
  * the welch branch transforms `data[i]` (the loop position, not the selected
    channel),
  * any other method name appends nothing (there is no else branch).
`perio` and `wel` stand for the per-channel computations of lines 72-93 and
95-107 (the functions `periodogram` and `welchBranch` of this file). -/
def psdChannelLoop (method : String) (channels : List ℕ)
    (perio wel : List ℚ → List ℚ) (data : List (List ℚ)) : List (List ℚ) :=
  (List.range channels.length).filterMap (fun i =>
    if method = "periodogram" then
      some (perio (data.getD (channels.getD i 0) []))
    else if method = "welch" then
      some (wel (data.getD i []))
    else none)

/-- The assembled output chunk (transforms.py line 109): `np.transpose(psd)`,
rows = spectral samples, columns = the per-channel outputs in loop order. -/
def psdWindowChunk (method : String) (channels : List ℕ)
    (perio wel : List ℚ → List ℚ) (data : List (List ℚ)) : List (List ℚ) :=
  (psdChannelLoop method channels perio wel data).transpose

/-- C4: the welch branch ignores the selected channel indices: with selected
channels [1] (the 1-based request [2]) on data whose channel 0 and channel 1
series differ, the welch branch transforms the channel-0 series `data[i]`
(loop position i = 0) where the claim requires the channel-1 series
`data[channels[0]]`; the periodogram branch indexes `data[channels[i]]`
correctly.  The docstring of psd documents `channels` as selecting which
channels to convert for both methods, so the welch indexing contradicts the
code's own documentation. -/
theorem C4_welch_channel_bug :
    (∀ (perio wel : List ℚ → List ℚ) (a b : ℚ),
        psdChannelLoop ("welch") [1] perio wel [[a], [b]] = [wel [a]]
          ∧ psdChannelLoop ("periodogram") [1] perio wel [[a], [b]]
              = [perio [b]])
      ∧ psdChannelLoop ("welch") [1] (fun x => x) (fun x => x) [[0], [1]]
          = [[0]]
      ∧ [[(0 : ℚ)]] ≠ [[(1 : ℚ)]] := by
  refine ⟨?_, ?_, ?_⟩
  · intro perio wel a b
    exact ⟨rfl, rfl⟩
  · rfl
  · decide

/-! ## The psd wrapper setup (transforms.py lines 121-215) -/

/-- The fields of a pylsl StreamInfo descriptor relevant to this core, with
its appended metadata key/value pairs. -/
structure StreamInfoModel where
  name : String
  stype : String
  channel_count : ℕ
  nominal_srate : ℚ
  source_id : String
  annots : List (String × String)
deriving Repr, DecidableEq

/-- Embeds the setup part of the psd wrapper (transforms.py lines 160-191):
default output name `input.name() + "-PSD"`, output channel count
(`np.size(channels)` when explicit, the input channel count otherwise), the
output StreamInfo (type "PSD", sample rate and source id copied from the
input) and the appended metadata: `window_length`, and `nperseg` (the welch
segment length for welch, `window_length` itself otherwise).  The source
performs no validation of `method` or of any other argument and contains no
raise statement: setup is total and always returns a descriptor, after which
the backend thread is started. -/
def psdSetup (input : StreamInfoModel) (output_stream_name : String)
    (method : String) (window_length : ℕ) (channels : Option (List ℤ))
    (nperseg : Option ℕ) : StreamInfoModel :=
  let name := if output_stream_name = "default"
    then input.name ++ "-PSD" else output_stream_name
  let numchan := match channels with
    | none => input.channel_count
    | some chs => chs.length
  let annots :=
    [("window_length", toString window_length)]
      ++ (if method = "welch" then
            [("nperseg", toString (match nperseg with
                | none => window_length / 8
                | some m => m))]
          else [("nperseg", toString window_length)])
  { name := name, stype := "PSD", channel_count := numchan,
    nominal_srate := input.nominal_srate, source_id := input.source_id,
    annots := annots }

/-- C5 counterexample: with method "bogus" the psd setup returns a complete
descriptor — no ConfigurationError, no error of any kind, neither at setup
nor later — and the per-window channel loop then produces the empty list, so
an empty chunk is pushed for every full window (data is pulled and output is
pushed, the error is never raised anywhere). -/
theorem C5_counterexample :
    psdSetup ⟨"EEG", "EEG", 4, 256, "sid", []⟩ ("default") ("bogus") 256
        none none
        = ⟨"EEG-PSD", "PSD", 4, 256, "sid",
            [("window_length", "256"), ("nperseg", "256")]⟩
      ∧ psdChannelLoop ("bogus") [0] (fun x => x) (fun x => x) [[1]] = [] := by
  constructor
  · rfl
  · rfl

/-- C5 (amended): the psd transform performs no method validation: for every
method string, setup returns a descriptor of type "PSD" (it cannot fail), and
when the method is neither "periodogram" nor "welch" the per-window channel
loop produces the empty list — an empty chunk is pushed for every full window
— instead of any error being raised at setup or per-window. -/
theorem C5_no_method_validation (input : StreamInfoModel)
    (oname method : String) (wl : ℕ) (chs : Option (List ℤ))
    (nps : Option ℕ) (channels : List ℕ) (perio wel : List ℚ → List ℚ)
    (data : List (List ℚ))
    (h1 : method ≠ "periodogram") (h2 : method ≠ "welch") :
    (psdSetup input oname method wl chs nps).stype = "PSD"
      ∧ psdChannelLoop method channels perio wel data = []
      ∧ psdWindowChunk method channels perio wel data = [] := by
  have hl : psdChannelLoop method channels perio wel data = [] := by
    simp [psdChannelLoop, h1, h2]
  refine ⟨rfl, hl, ?_⟩
  unfold psdWindowChunk
  rw [hl]
  rfl

theorem C5_no_method_validation_witness :
    ("bogus" : String) ≠ "periodogram"
      ∧ (psdSetup ⟨"EEG", "EEG", 4, 256, "sid", []⟩ ("default") ("bogus")
            256 none none).stype = "PSD"
      ∧ psdChannelLoop ("bogus") [0] (fun x => x) (fun x => x) [[1]] = []
      ∧ psdWindowChunk ("bogus") [0] (fun x => x) (fun x => x) [[1]] = [] :=
  ⟨by decide,
    C5_no_method_validation ⟨"EEG", "EEG", 4, 256, "sid", []⟩ ("default")
      ("bogus") 256 none none [0] (fun x => x) (fun x => x) [[1]]
      (by decide) (by decide)⟩

/-! ## The welch branch (transforms.py lines 95-107)

The source chooses the tapering window (`window_type(int(window_length / 8))`
when `nperseg` is unspecified, `window_type(nperseg)` otherwise) and calls
`scipy.signal.welch(data[i], fs=fs, noverlap=noverlap, window=window)`.
scipy.signal.welch is an external collaborator whose source is not part of
this repository; it is modelled here following the spec and the scipy
contract: the window is split into segments of `nperseg = len(window)`
samples overlapping by `noverlap` (default `nperseg / 2`), each segment is
detrended, tapered and turned into a periodogram, and the per-segment
periodograms are averaged; the one-sided output has `nperseg / 2 + 1`
entries. -/

/-- scipy default overlap: half a segment. -/
def welchNoverlapDefault (nperseg : ℕ) : ℕ := nperseg / 2

/-- The overlapping segments of length `nperseg` starting every
`nperseg - noverlap` samples (as many as fit entirely). -/
def welchSegments (nperseg noverlap : ℕ) (x : List ℚ) : List (List ℚ) :=
  let step := nperseg - noverlap
  (List.range ((x.length - noverlap) / step)).map
    (fun j => (x.drop (j * step)).take nperseg)

/-- Modelled from the spec: scipy.signal.welch on one channel series, with
the tapering window given as an array (so `nperseg = len(window)`), mean
detrending per segment, per-segment periodograms normalized by the window
energy and the sampling rate, averaged pointwise over the segments; output
length `nperseg / 2 + 1`. -/
def welchModel (om : ℚ × ℚ) (win : List ℚ) (fs : ℚ) (noverlap : Option ℕ)
    (x : List ℚ) : List ℚ :=
  let nperseg := win.length
  let nov := noverlap.getD (welchNoverlapDefault nperseg)
  let segs := welchSegments nperseg nov x
  let perSeg := segs.map (fun s =>
    (rfft om nperseg
        (List.zipWith (fun u v => u * v) (s.map (fun v => v - npMean s)) win)).map
      (fun c => normSq c / (fs * windowPower win)))
  (List.range (nperseg / 2 + 1)).map
    (fun k => ((perSeg.map (fun p => p.getD k 0)).sum) / (segs.length : ℚ))

/-- Embeds the welch branch of psd_backend (transforms.py lines 95-107): the
tapering window is `window_type(int(window_length / 8))` when `nperseg` is
unspecified (so that there are 8 segments per window) and
`window_type(nperseg)` otherwise; then scipy.signal.welch is invoked with
that window. -/
def welchBranch (om : ℚ × ℚ) (wt : ℕ → List ℚ) (wl : ℕ) (nperseg : Option ℕ)
    (noverlap : Option ℕ) (fs : ℚ) (x : List ℚ) : List ℚ :=
  let window := match nperseg with
    | none => wt (wl / 8)
    | some m => wt m
  welchModel om window fs noverlap x

theorem welchModel_length (om : ℚ × ℚ) (win : List ℚ) (fs : ℚ)
    (noverlap : Option ℕ) (x : List ℚ) :
    (welchModel om win fs noverlap x).length = win.length / 2 + 1 := by
  unfold welchModel
  rw [List.length_map, List.length_range]

/-- C7: for every welch configuration the per-channel output length is
exactly nperseg/2 + 1, and when nperseg is unspecified the tapering window is
window_type(window_length/8), making the effective segment length
window_length/8 (8 segments per window); stated for every window function
that maps a requested length n to an n-length weight sequence. -/
theorem C7_welch_output_length (om : ℚ × ℚ) (wt : ℕ → List ℚ) (wl : ℕ)
    (noverlap : Option ℕ) (fs : ℚ) (x : List ℚ)
    (hwt : ∀ n, (wt n).length = n) :
    welchBranch om wt wl none noverlap fs x
        = welchModel om (wt (wl / 8)) fs noverlap x
      ∧ (welchBranch om wt wl none noverlap fs x).length = (wl / 8) / 2 + 1
      ∧ ∀ m, (welchBranch om wt wl (some m) noverlap fs x).length
          = m / 2 + 1 := by
  refine ⟨rfl, ?_, ?_⟩
  · show (welchModel om (wt (wl / 8)) fs noverlap x).length = (wl / 8) / 2 + 1
    rw [welchModel_length, hwt]
  · intro m
    show (welchModel om (wt m) fs noverlap x).length = m / 2 + 1
    rw [welchModel_length, hwt]

theorem C7_welch_output_length_witness :
    welchBranch (1, 0) (fun n => List.replicate n 1) 16 none none 1 [1, 2, 3]
        = welchModel (1, 0) (List.replicate 2 1) 1 none [1, 2, 3]
      ∧ (welchBranch (1, 0) (fun n => List.replicate n 1) 16 none none 1
            [1, 2, 3]).length = 2
      ∧ ∀ m, (welchBranch (1, 0) (fun n => List.replicate n 1) 16 (some m)
            none 1 [1, 2, 3]).length = m / 2 + 1 :=
  C7_welch_output_length (1, 0) (fun n => List.replicate n 1) 16 none 1
    [1, 2, 3] (fun n => List.length_replicate n 1)

/-! ## The butter filter (filtering.py lines 61-102)

custom_filter._backend derives, at setup of the loop (lines 67-75):
`fs_nyquist = 0.5 * fs`, `signal_frequency = fs / sample_period ** 2`,
`cutoff = np.ceil(signal_frequency)`; per channel (lines 96-102) it computes
`normal_cutoff = cutoff / fs_nyquist`, `b, a = signal.butter(order,
normal_cutoff)` with `order = 2`, and `y = signal.filtfilt(b, a, data[i])`.
scipy.signal.butter and scipy.signal.lfilter are external collaborators:
butter is kept parametric (its coefficients are irrational), and filtfilt is
modelled from the spec as the zero-phase forward-backward application of the
direct-form difference equation `a0 * y[n] = sum_k b[k] x[n-k] - sum_(k>=1)
a[k] y[n-k]`. -/

/-- The direct-form IIR difference equation of scipy.signal.lfilter: one
output sample per input sample. -/
def lfilter (b a : List ℚ) (x : List ℚ) : List ℚ :=
  let a0 := a.headD 1
  (x.foldl (fun (st : List ℚ × List ℚ) xn =>
      let xs := xn :: st.1
      let yn := ((List.zipWith (fun u v => u * v) b xs).sum
          - (List.zipWith (fun u v => u * v) (a.drop 1) st.2).sum) / a0
      (xs, yn :: st.2)) ([], [])).2.reverse

/-- Modelled from the spec: scipy.signal.filtfilt applies the filter forward,
reverses, applies it again and reverses back (zero-phase forward-backward
filtering), returning a sequence of the input length. -/
def filtfilt (b a : List ℚ) (x : List ℚ) : List ℚ :=
  (lfilter b a (lfilter b a x).reverse).reverse

/-- The normalized cutoff handed to signal.butter (filtering.py lines 70-75
and 97): `ceil(fs / sample_period ** 2) / (0.5 * fs)`. -/
def normalCutoff (fs sp : ℚ) : ℚ := ((⌈fs / sp ^ 2⌉ : ℤ) : ℚ) / (0.5 * fs)

/-- Embeds the per-channel butter branch of custom_filter._backend
(filtering.py lines 94-102), parametric in the scipy.signal.butter
coefficient computation `butterC order normal_cutoff = (b, a)`. -/
def butterChannel (butterC : ℕ → ℚ → List ℚ × List ℚ) (fs sp : ℚ)
    (x : List ℚ) : List ℚ :=
  let ba := butterC 2 (normalCutoff fs sp)
  filtfilt ba.1 ba.2 x

theorem lfilter_length (b a : List ℚ) (x : List ℚ) :
    (lfilter b a x).length = x.length := by
  unfold lfilter
  rw [List.length_reverse]
  suffices h : ∀ (st : List ℚ × List ℚ),
      ((x.foldl (fun (st : List ℚ × List ℚ) xn =>
          let xs := xn :: st.1
          let yn := ((List.zipWith (fun u v => u * v) b xs).sum
              - (List.zipWith (fun u v => u * v) (a.drop 1) st.2).sum)
              / a.headD 1
          (xs, yn :: st.2)) st).2).length = x.length + st.2.length by
    simpa using h ([], [])
  induction x with
  | nil => intro st; simp
  | cons xh xt ih =>
    intro st
    rw [List.foldl_cons, ih]
    simp
    omega

theorem filtfilt_length (b a : List ℚ) (x : List ℚ) :
    (filtfilt b a x).length = x.length := by
  unfold filtfilt
  rw [List.length_reverse, lfilter_length, List.length_reverse,
    lfilter_length]

/-- C8: the butter branch computes coefficients at fixed order 2 and
normalized cutoff `ceil(fs / sample_period^2)` divided by the Nyquist
frequency `fs / 2`, applies them as a zero-phase forward-backward filter, and
the per-channel output has the same length as the input window — for every
coefficient computation, sampling rate, sampling period and channel series. -/
theorem C8_butter_channel (butterC : ℕ → ℚ → List ℚ × List ℚ) (fs sp : ℚ)
    (x : List ℚ) :
    butterChannel butterC fs sp x
        = filtfilt (butterC 2 (normalCutoff fs sp)).1
            (butterC 2 (normalCutoff fs sp)).2 x
      ∧ normalCutoff fs sp = ((⌈fs / sp ^ 2⌉ : ℤ) : ℚ) / (fs / 2)
      ∧ (butterChannel butterC fs sp x).length = x.length := by
  refine ⟨rfl, ?_, ?_⟩
  · unfold normalCutoff
    congr 1
    ring
  · unfold butterChannel
    exact filtfilt_length _ _ _

/-! ## StreamManipulator descriptor setup (templates.py lines 7-51) and the
custom filter subclass (filtering.py lines 7-59) -/

/-- Embeds StreamManipulator.__init__ together with its
initialize_output_stream (templates.py lines 8-51): channel count from the
request (the input channel count when none), default output name
`input.name() + "--" + stream_type`, and an output StreamInfo of the given
stream type with sample rate and source id copied from the input; the base
class appends no metadata. -/
def manipulatorSetup (input : StreamInfoModel) (stream_type : String)
    (output_stream_name : String) (channels : Option (List ℤ)) :
    StreamInfoModel :=
  let numchan := match channels with
    | none => input.channel_count
    | some chs => chs.length
  let name := if output_stream_name = "default"
    then input.name ++ "--" ++ stream_type else output_stream_name
  { name := name, stype := stream_type, channel_count := numchan,
    nominal_srate := input.nominal_srate, source_id := input.source_id,
    annots := [] }

/-- The stream type derived by custom_filter.__init__ (filtering.py lines
38-39): the default "filter" becomes `"_".join([filter_type, "filter"])`. -/
def customFilterStreamType (filter_type : String) : String :=
  filter_type ++ "_filter"

/-- What the custom_filter constructor has computed by the time it invokes
initialize_output_stream, and the outcome of that invocation. -/
structure CustomFilterInitResult where
  stream_type : String
  output_stream_name : String
  numchan : ℕ
  descriptor : Except String StreamInfoModel
deriving Repr

/-- Embeds the custom_filter constructor (filtering.py lines 8-54 running
templates.py lines 8-35): the derived stream type (filtering.py lines
38-39), the channel count (templates.py lines 19-25) and the default output
name `input.name() + "--" + stream_type` (templates.py lines 30-33) are all
assigned first; then templates.py line 35 invokes the overriding
initialize_output_stream (filtering.py lines 56-59), whose first statement
calls the parent under the name init_output_stream — a method templates.py
does not define (the parent method is initialize_output_stream) — so the
constructor raises AttributeError there: no output StreamInfo is ever
created for the filter and the window_length metadata line (filtering.py
line 59) is never reached. -/
def customFilterInit (input : StreamInfoModel) (output_stream_name : String)
    (channels : Option (List ℤ)) (filter_type : String) :
    CustomFilterInitResult :=
  let stream_type := customFilterStreamType filter_type
  let numchan := match channels with
    | none => input.channel_count
    | some chs => chs.length
  let name := if output_stream_name = "default"
    then input.name ++ "--" ++ stream_type else output_stream_name
  { stream_type := stream_type, output_stream_name := name,
    numchan := numchan,
    descriptor := Except.error ("AttributeError: init_output_stream") }

/-- C9 counterexample: with no override, the psd transform names its output
with a single dash and the literal suffix "-PSD", not with "--" followed by
the transform type as claimed: the default name is "EEG-PSD", which differs
from "EEG" ++ "--" ++ "PSD". -/
theorem C9_counterexample :
    (psdSetup ⟨"EEG", "EEG", 4, 256, "sid", []⟩ ("default") ("periodogram")
        256 none none).name = "EEG-PSD"
      ∧ ("EEG-PSD" : String) ≠ "EEG" ++ "--" ++ "PSD" := by
  constructor
  · rfl
  · decide

/-- C9 (amended): with no output name override, the base StreamManipulator
names its output input.name ++ "--" ++ stream_type, with channel count equal
to the number of selected channels (the input channel count when no channels
are requested) and sample rate copied from the input; the psd transform
names its output input.name ++ "-PSD" (single dash and literal suffix), with
channel count equal to the number of selected channels, sample rate copied
from the input, and metadata containing window_length and nperseg.  The
custom filter subclass derives stream_type filter_kind ++ "_filter" and
computes the default name input.name ++ "--" ++ that stream type, but its
constructor then fails with an AttributeError on a misnamed parent method
before the output descriptor is built, so no filter descriptor and no filter
window_length metadata are ever produced. -/
theorem C9_output_descriptor (input : StreamInfoModel) (st ft method : String)
    (wl : ℕ) (chs : List ℤ) (nps : Option ℕ) :
    (manipulatorSetup input st ("default") none).name
        = input.name ++ "--" ++ st
      ∧ (psdSetup input ("default") method wl none nps).name
          = input.name ++ "-PSD"
      ∧ (psdSetup input ("default") method wl (some chs) nps).channel_count
          = chs.length
      ∧ (psdSetup input ("default") method wl none nps).channel_count
          = input.channel_count
      ∧ (psdSetup input ("default") method wl none nps).nominal_srate
          = input.nominal_srate
      ∧ (manipulatorSetup input st ("default") (some chs)).channel_count
          = chs.length
      ∧ (manipulatorSetup input st ("default") none).nominal_srate
          = input.nominal_srate
      ∧ ("window_length", toString wl)
          ∈ (psdSetup input ("default") method wl none nps).annots
      ∧ (∃ v, ("nperseg", v)
          ∈ (psdSetup input ("default") method wl none nps).annots)
      ∧ (customFilterInit input ("default") none ft).stream_type
          = ft ++ "_filter"
      ∧ (customFilterInit input ("default") none ft).output_stream_name
          = input.name ++ "--" ++ (ft ++ "_filter")
      ∧ (customFilterInit input ("default") none ft).descriptor
          = Except.error ("AttributeError: init_output_stream") := by
  refine ⟨rfl, rfl, rfl, rfl, rfl, rfl, rfl, ?_, ?_, rfl, rfl, rfl⟩
  · simp [psdSetup]
  · by_cases hm : method = "welch"
    · exact ⟨toString (match nps with
        | none => wl / 8
        | some m => m), by simp [psdSetup, hm]⟩
    · exact ⟨toString wl, by simp [psdSetup, hm]⟩

/-! ## The fixed-width buffer (transforms.py lines 50-52, filtering.py line 77)

Both backends initialize `buffer = np.empty((0, 5))`: zero rows, five
columns.  `np.append(buffer, chunk, axis=0)` requires the appended rows to
match the buffer width and raises a shape-mismatch ValueError otherwise. -/

/-- The fixed column count both backends give their buffer
(transforms.py line 51 / filtering.py line 77). -/
def bufferWidth : ℕ := 5

/-- Embeds np.append(buffer, chunk, axis=0) on a width-`width` buffer: the
row concatenation when every appended row has the buffer width, a
shape-mismatch ValueError otherwise. -/
def npAppendRows (width : ℕ) (buffer chunk : List (List ℚ)) :
    Except String (List (List ℚ)) :=
  if chunk.all (fun r => r.length == width) then Except.ok (buffer ++ chunk)
  else Except.error ("ValueError: shape mismatch")

/-- The first loop iteration of either backend on its first non-empty chunk,
starting from the empty five-wide buffer (transforms.py lines 50-64 /
filtering.py lines 77-89): the pulled chunk is appended with np.append
before any window can be extracted, so a shape mismatch surfaces before any
extraction and before anything is pushed. -/
def firstStep {β : Type} (w : ℕ) (tr : List (List ℚ) → β)
    (chunk : List (List ℚ)) :
    Except String (List (List ℚ) × Option β) :=
  if chunk.isEmpty then Except.ok ([], none)
  else
    match npAppendRows bufferWidth [] chunk with
    | Except.error e => Except.error e
    | Except.ok b =>
      if w ≤ b.length then Except.ok (b.drop w, some (tr (b.take w)))
      else Except.ok (b, none)

/-- C10: both backends fix the buffer width at five columns, so the first
append of a non-empty rectangular chunk with C columns fails with a
shape-mismatch error — before any window is extracted and before any output
is pushed — whenever C is not 5, and succeeds exactly when C = 5: the
pipeline can only process past its first non-empty chunk on a 5-channel
input. -/
theorem C10_fixed_buffer_width {β : Type} (w : ℕ) (tr : List (List ℚ) → β)
    (C : ℕ) (chunk : List (List ℚ)) (hne : chunk ≠ [])
    (hrect : ∀ r ∈ chunk, r.length = C) :
    (C ≠ 5 → firstStep w tr chunk
        = Except.error ("ValueError: shape mismatch"))
      ∧ (C = 5 → ∃ st, firstStep w tr chunk = Except.ok st) := by
  constructor
  · intro hC
    cases chunk with
    | nil => exact absurd rfl hne
    | cons r t =>
      have hr : r.length = C := hrect r (by simp)
      have hb : (r.length == bufferWidth) = false := by
        rw [hr, beq_eq_false_iff_ne]
        simpa [bufferWidth] using hC
      unfold firstStep npAppendRows
      simp [hb]
  · intro hC
    subst hC
    have hall : chunk.all (fun r => r.length == bufferWidth) = true := by
      rw [List.all_eq_true]
      intro r hrmem
      have hlen := hrect r hrmem
      simp [bufferWidth, hlen]
    have hemp : chunk.isEmpty = false := by
      cases chunk with
      | nil => exact absurd rfl hne
      | cons r t => rfl
    unfold firstStep npAppendRows
    rw [hemp, hall]
    simp only [Bool.false_eq_true, if_false, if_true]
    split
    · exact ⟨_, rfl⟩
    · exact ⟨_, rfl⟩

theorem C10_fixed_buffer_width_witness :
    firstStep 256 (fun d => d) [[(1 : ℚ), 2, 3, 4]]
        = Except.error ("ValueError: shape mismatch")
      ∧ ∃ st, firstStep 2 (fun d => d) [[(1 : ℚ), 2, 3, 4, 5]]
          = Except.ok st := by
  constructor
  · exact (C10_fixed_buffer_width 256 (fun d => d) 4 [[(1 : ℚ), 2, 3, 4]]
      (by decide) (by decide)).1 (by decide)
  · exact (C10_fixed_buffer_width 2 (fun d => d) 5 [[(1 : ℚ), 2, 3, 4, 5]]
      (by decide) (by decide)).2 rfl

end Streamstaff
